import Mathlib

set_option maxRecDepth 10000

/-!
Shallow embedding of `src/utils/db.js` from the webpage-clipper-indexeddb
repository: the IndexedDB storage module (`initDB`, `addClippedPage`,
`getAllClippedPages`, `deleteClippedPage`, `clearAllClippedPages`), the
metadata derivation (word count / reading time) and the version-upgrade
backfill scan, together with theorems settling the specification claims.
-/

namespace WebpageClipper

/-- JS truthiness choice `v || d` for an optional string value:
`undefined`/missing and the empty string are falsy, so both select `d`. -/
def jsOrElse (v : Option String) (d : String) : String :=
  match v with
  | none => d
  | some s => if s = "" then d else s

/-- JS falsiness of an optional numeric field: `undefined`/missing and `0`
are falsy (`!data.wordCount` is true for both). -/
def jsFalsyNat (v : Option Nat) : Bool :=
  match v with
  | none => true
  | some n => n == 0

/-- Splits a character list into its maximal runs of non-whitespace
characters, accumulating the current (reversed) token in `acc`.  This is
the combined semantics of `text.trim().split(/\s+/).filter(Boolean)`:
trimming plus splitting on whitespace runs plus dropping empty tokens
leaves exactly the maximal non-whitespace runs, in order. -/
def splitWordsAux : List Char → List Char → List (List Char)
  | [], acc => if acc.isEmpty then [] else [acc.reverse]
  | c :: cs, acc =>
    if c.isWhitespace then
      if acc.isEmpty then splitWordsAux cs [] else acc.reverse :: splitWordsAux cs []
    else splitWordsAux cs (c :: acc)

/-- Models `text.trim().split(/\s+/).filter(Boolean)` (lines 66–67 and
31–32 of `src/utils/db.js`): the list of whitespace-delimited non-empty
tokens of `text`. -/
def jsWords (text : String) : List String :=
  (splitWordsAux text.data []).map List.asString

/-- The tokenization the spec describes for the Metadata Deriver
("Tokenize by trimming, then splitting on runs of whitespace, discarding
empty tokens"), written with the standard library splitter: trim both
ends, split at whitespace and discard the empty tokens (splitting at every
whitespace character and then discarding empties produces exactly the
splits on whitespace runs). -/
def specTokens (text : String) : List (List Char) :=
  (((text.data.dropWhile Char.isWhitespace).rdropWhile Char.isWhitespace).splitOnP
      Char.isWhitespace).filter (fun t => t ≠ [])

/-- Models `Math.ceil(n / k)` on exact (real) division of non-negative integers. -/
def jsCeilDiv (n k : Nat) : Nat :=
  Nat.ceil ((n : ℚ) / (k : ℚ))

/-- Computes `words.length` for `words = text.trim().split(/\s+/).filter(Boolean)`
(lines 66–67 and 31–32 of `src/utils/db.js`). -/
def deriveWordCount (text : String) : Nat :=
  (jsWords text).length

/-- Computes `Math.ceil(words.length / 200)` (lines 71 and 35 of `src/utils/db.js`). -/
def deriveReadingTime (text : String) : Nat :=
  jsCeilDiv (deriveWordCount text) 200

/-- A record of the `clippedPages` object store.  JS objects are dynamic,
so each field of the data model (spec §3) is optional: `none` models an
absent (`undefined`) property.  `id` is the store's key. -/
structure ClippedPage where
  id : Option Nat := none
  title : Option String := none
  url : Option String := none
  content : Option String := none
  timestamp : Option String := none
  wordCount : Option Nat := none
  readingTime : Option Nat := none
deriving DecidableEq

/-- The expected schema version (`const DB_VERSION = 2`). -/
def DB_VERSION : Nat := 2

/-- The persistent database plus the module-level connection variable
(`let db = null`).  `connected` is true once `initDB` has set `db`;
`version` is the on-disk schema version; `storeExists` records whether the
`clippedPages` object store exists in the database; `pages` are the stored
records in key order; `nextId` is the store's key generator state. -/
structure Env where
  connected : Bool
  version : Nat
  storeExists : Bool
  pages : List ClippedPage
  nextId : Nat
deriving DecidableEq

/-- Errors surfaced by the operations: `notInit` is the thrown
`Error('Database not initialized')`; `storeNotFound` is the `NotFoundError`
DOMException thrown by `db.transaction([STORE_NAME], ...)` when the
`clippedPages` store does not exist in the connected database. -/
inductive DBErr
  | notInit
  | storeNotFound
deriving DecidableEq

/-- The body of the upgrade cursor scan (lines 26–39 of `src/utils/db.js`)
applied to one record: if `wordCount` or `readingTime` is missing/falsy,
recompute both from `content || ''` and `cursor.update` the record,
otherwise leave it alone. -/
def backfillPage (p : ClippedPage) : ClippedPage :=
  if jsFalsyNat p.wordCount || jsFalsyNat p.readingTime then
    let text := jsOrElse p.content ""
    { p with
      wordCount := some (deriveWordCount text),
      readingTime := some (deriveReadingTime text) }
  else p

/-- The `onupgradeneeded` handler (lines 18–41 of `src/utils/db.js`): when
the `clippedPages` store already exists it opens a cursor over the store
and backfills each record; it never calls `createObjectStore`, so when the
store does not exist the handler does nothing. -/
def upgradeHandler (e : Env) : Env :=
  if e.storeExists then { e with pages := e.pages.map backfillPage } else e

/-- Models `initDB` (lines 14–57 of `src/utils/db.js`): `indexedDB.open`
at `DB_VERSION` runs the `onupgradeneeded` handler exactly when the stored
version is behind, records the new version, and on success assigns the
module-level `db` connection. -/
def initDB (e : Env) : Env :=
  let e1 := if e.version < DB_VERSION then
    { upgradeHandler e with version := DB_VERSION } else e
  { e1 with connected := true }

/-- Modelled from the spec: `src/utils/db.js` never configures the
`clippedPages` store (the `createObjectStore` call with its key settings is
absent from the upgrade handler), so the key assignment performed by
`store.add(data)` is taken from the spec: an "auto-incrementing numeric
key" whose "uniqueness and assignment are owned exclusively by the storage
engine; callers never supply it" — the generator value becomes the new
record's `id` and the generator advances. -/
def storeAdd (e : Env) (data : ClippedPage) : Env × Nat :=
  let newId := e.nextId
  ({ e with
      pages := e.pages ++ [{ data with id := some newId }],
      nextId := newId + 1 },
    newId)

/-- Models `addClippedPage` (lines 60–92 of `src/utils/db.js`): rejects
when `db` is unset; derives `wordCount`/`readingTime` from
`pageData.content || ''` and defaults `timestamp` to `now` when falsy;
then adds the spread record in a read-write transaction, which throws
`NotFoundError` when the store is absent and otherwise returns the
generated id. -/
def addClippedPage (e : Env) (pageData : ClippedPage) (now : String) :
    Env × Except DBErr Nat :=
  if !e.connected then (e, .error .notInit)
  else
    let text := jsOrElse pageData.content ""
    let words := jsWords text
    let data : ClippedPage := { pageData with
      timestamp := some (jsOrElse pageData.timestamp now),
      wordCount := some words.length,
      readingTime := some (jsCeilDiv words.length 200) }
    if !e.storeExists then (e, .error .storeNotFound)
    else
      let r := storeAdd e data
      (r.1, .ok r.2)

/-- Models `getAllClippedPages` (lines 95–117 of `src/utils/db.js`):
rejects when `db` is unset; `store.getAll()` returns every record in the
store (in key order) in a read-only transaction. -/
def getAllClippedPages (e : Env) : Env × Except DBErr (List ClippedPage) :=
  if !e.connected then (e, .error .notInit)
  else if !e.storeExists then (e, .error .storeNotFound)
  else (e, .ok e.pages)

/-- Models `deleteClippedPage` (lines 120–142 of `src/utils/db.js`):
rejects when `db` is unset; `store.delete(id)` removes the record keyed by
`id` when present and succeeds without error either way. -/
def deleteClippedPage (e : Env) (idToRemove : Nat) : Env × Except DBErr Unit :=
  if !e.connected then (e, .error .notInit)
  else if !e.storeExists then (e, .error .storeNotFound)
  else
    ({ e with pages := e.pages.filter fun p => p.id ≠ some idToRemove },
      .ok ())

/-- Models `clearAllClippedPages` (lines 145–167 of `src/utils/db.js`):
rejects when `db` is unset; `store.clear()` removes every record. -/
def clearAllClippedPages (e : Env) : Env × Except DBErr Unit :=
  if !e.connected then (e, .error .notInit)
  else if !e.storeExists then (e, .error .storeNotFound)
  else ({ e with pages := [] }, .ok ())

/-- Well-formedness of a reachable database state: every stored key is
below the key generator (the IndexedDB generator never reissues a used
key), as the spec's "monotonically assigned" unique `id`s require. -/
def Env.WF (e : Env) : Prop :=
  ∀ p ∈ e.pages, ∀ i, p.id = some i → i < e.nextId

/-- A fresh install: no pre-existing database, hence on-disk version `0`,
no `clippedPages` store, no records, key generator at its initial value. -/
def freshInstall : Env :=
  { connected := false, version := 0, storeExists := false, pages := [], nextId := 1 }

/-- A sample stored record with both derived fields present. -/
def samplePage1 : ClippedPage :=
  { id := some 1, title := some "A", url := some "u1", content := some "hello world",
    timestamp := some "t1", wordCount := some 2, readingTime := some 1 }

/-- A sample stored record lacking the derived fields. -/
def samplePage2 : ClippedPage :=
  { id := some 2, title := some "B", url := some "u2", content := some "a b" }

/-- A sample post-`init` state whose `clippedPages` store exists and holds
two records. -/
def sampleEnv : Env :=
  { connected := true, version := 2, storeExists := true,
    pages := [samplePage1, samplePage2], nextId := 3 }

/-- An input record whose caller-supplied `timestamp` is the empty string. -/
def tsEmptyPage : ClippedPage :=
  { title := some "A", url := some "u", content := some "x", timestamp := some "" }

/-- A well-formed input record for `addClippedPage`: title, url and
content present; no id, no derived fields. -/
def newPage : ClippedPage :=
  { title := some "N", url := some "un", content := some "x y z" }

/-- An input record that illegally supplies its own derived fields and a
non-empty timestamp. -/
def overridePage : ClippedPage :=
  { title := some "T", url := some "u", content := some "x",
    timestamp := some "TS", wordCount := some 999, readingTime := some 77 }

/-- An input record with no `content` property at all. -/
def noContentPage : ClippedPage :=
  { title := some "T", url := some "u" }

/-- The record that `addClippedPage r` is expected to have stored: it
matches `r` on `title`, `url` and `content`, carries the returned id and
non-null derived fields. -/
def matchesNew (r : ClippedPage) (newId : Nat) (p : ClippedPage) : Bool :=
  p.title == r.title && p.url == r.url && p.content == r.content &&
    p.id == some newId && p.wordCount.isSome && p.readingTime.isSome

/-- The ceiling `Math.ceil(n / k)` agrees with natural ceiling division
`(n + k - 1) / k` for a positive divisor. -/
theorem jsCeilDiv_eq (n k : Nat) (hk : 0 < k) :
    jsCeilDiv n k = (n + k - 1) / k := by
  have hkQ : (0 : ℚ) < (k : ℚ) := by exact_mod_cast hk
  unfold jsCeilDiv
  apply Nat.le_antisymm
  · rw [Nat.ceil_le, div_le_iff₀ hkQ]
    have h1 : n + k - 1 < ((n + k - 1) / k + 1) * k :=
      (Nat.div_lt_iff_lt_mul hk).mp (Nat.lt_succ_self _)
    have h2 : n ≤ (n + k - 1) / k * k := by
      rw [add_one_mul] at h1
      generalize (n + k - 1) / k * k = t at h1 ⊢
      omega
    exact_mod_cast h2
  · have hle : (n : ℚ) ≤ (Nat.ceil ((n : ℚ) / (k : ℚ)) : ℚ) * k := by
      have h := Nat.le_ceil ((n : ℚ) / (k : ℚ))
      calc (n : ℚ) = (n : ℚ) / k * k := by field_simp
        _ ≤ (Nat.ceil ((n : ℚ) / (k : ℚ)) : ℚ) * k :=
            mul_le_mul_of_nonneg_right h (le_of_lt hkQ)
    have hn : n ≤ Nat.ceil ((n : ℚ) / (k : ℚ)) * k := by exact_mod_cast hle
    rw [Nat.div_le_iff_le_mul_add_pred hk]
    rw [Nat.mul_comm] at hn
    generalize k * Nat.ceil ((n : ℚ) / (k : ℚ)) = t at hn ⊢
    omega

/-- The ceiling of `0 / k` is `0`. -/
theorem jsCeilDiv_zero (k : Nat) : jsCeilDiv 0 k = 0 := by
  simp [jsCeilDiv]

/-- The ceiling of `n / 200` is positive when `n` is. -/
theorem jsCeilDiv_pos (n : Nat) (hn : 0 < n) : 0 < jsCeilDiv n 200 := by
  rw [jsCeilDiv_eq n 200 (by omega)]
  omega

/-- Computation rule for `deriveReadingTime` in natural arithmetic. -/
theorem deriveReadingTime_eq (text : String) :
    deriveReadingTime text = (deriveWordCount text + 199) / 200 := by
  unfold deriveReadingTime
  rw [jsCeilDiv_eq _ 200 (by omega)]
  omega

/-- The code's accumulator splitter agrees with the library splitter
modified by prepending the accumulator to the first chunk and filtering
out empty chunks. -/
theorem splitWordsAux_eq (l acc : List Char) :
    splitWordsAux l acc =
      ((l.splitOnP Char.isWhitespace).modifyHead (acc.reverse ++ ·)).filter
        (fun t => t ≠ []) := by
  induction l generalizing acc with
  | nil =>
    by_cases h : acc = []
    · subst h; simp [splitWordsAux, List.splitOnP_nil]
    · simp [splitWordsAux, List.splitOnP_nil, h, List.isEmpty_iff]
  | cons c cs ih =>
    by_cases hc : c.isWhitespace
    · rcases hsp : cs.splitOnP Char.isWhitespace with _ | ⟨t, ts⟩
      · exact absurd hsp (List.splitOnP_ne_nil _ _)
      · by_cases h : acc = []
        · subst h
          simp [splitWordsAux, hc, List.splitOnP_cons, ih, hsp]
        · simp [splitWordsAux, hc, List.splitOnP_cons, ih, hsp, h, List.isEmpty_iff]
    · rcases hsp : cs.splitOnP Char.isWhitespace with _ | ⟨t, ts⟩
      · exact absurd hsp (List.splitOnP_ne_nil _ _)
      · simp [splitWordsAux, hc, List.splitOnP_cons, ih, hsp]

/-- On a list of whitespace characters the splitter only flushes the
accumulator. -/
theorem splitWordsAux_all_ws (s acc : List Char)
    (h : ∀ c ∈ s, c.isWhitespace = true) :
    splitWordsAux s acc = if acc.isEmpty then [] else [acc.reverse] := by
  induction s generalizing acc with
  | nil => rfl
  | cons c cs ih =>
    have hc : c.isWhitespace = true := h c (by simp)
    have ih0 := ih [] (fun x hx => h x (by simp [hx]))
    by_cases ha : acc = [] <;>
      simp [splitWordsAux, hc, ha, ih0, List.isEmpty_iff]

/-- Leading whitespace does not change the splitter's tokens. -/
theorem splitWordsAux_dropWhile (l : List Char) :
    splitWordsAux (l.dropWhile Char.isWhitespace) [] = splitWordsAux l [] := by
  induction l with
  | nil => rfl
  | cons c cs ih =>
    by_cases hc : c.isWhitespace <;>
      simp [List.dropWhile_cons, hc, ih, splitWordsAux]

/-- Trailing whitespace does not change the splitter's tokens. -/
theorem splitWordsAux_append_ws (l s : List Char)
    (h : ∀ c ∈ s, c.isWhitespace = true) (acc : List Char) :
    splitWordsAux (l ++ s) acc = splitWordsAux l acc := by
  induction l generalizing acc with
  | nil =>
    simp only [List.nil_append]
    rw [splitWordsAux_all_ws s acc h]
    rfl
  | cons c cs ih =>
    by_cases hc : c.isWhitespace <;>
      simp [splitWordsAux, hc, ih]

/-- A list is the concatenation of what `rdropWhile` keeps and what it
drops. -/
theorem rdropWhile_append_rtakeWhile (p : Char → Bool) (l : List Char) :
    l.rdropWhile p ++ l.rtakeWhile p = l := by
  rw [List.rdropWhile, List.rtakeWhile, ← List.reverse_append,
    List.takeWhile_append_dropWhile, List.reverse_reverse]

/-- Trimming both ends does not change the splitter's tokens. -/
theorem splitWordsAux_trim (l : List Char) :
    splitWordsAux ((l.dropWhile Char.isWhitespace).rdropWhile Char.isWhitespace) [] =
      splitWordsAux l [] := by
  conv_rhs => rw [← splitWordsAux_dropWhile l]
  conv_rhs =>
    rw [← rdropWhile_append_rtakeWhile Char.isWhitespace (l.dropWhile Char.isWhitespace)]
  rw [splitWordsAux_append_ws _ _ (fun c hc => List.mem_rtakeWhile_imp hc)]

/-- The accumulator splitter started empty is the library splitter with
empty chunks discarded. -/
theorem splitWords_eq_splitOnP (l : List Char) :
    splitWordsAux l [] = (l.splitOnP Char.isWhitespace).filter (fun t => t ≠ []) := by
  rw [splitWordsAux_eq]
  rcases hsp : l.splitOnP Char.isWhitespace with _ | ⟨t, ts⟩
  · simp
  · simp

/-- The code's tokenization coincides with the spec's trim-split-discard
tokenization. -/
theorem jsWords_eq_specTokens (text : String) :
    jsWords text = (specTokens text).map List.asString := by
  unfold jsWords specTokens
  rw [← splitWordsAux_trim, splitWords_eq_splitOnP]

/-- C3: for every content string, the derivation used by `addClippedPage`
and by the backfill scan sets `wordCount` to the number of non-empty
tokens obtained by trimming and splitting on runs of whitespace, and
`readingTime` to `ceil(wordCount / 200)`; empty or whitespace-only content
yields `wordCount = 0` and `readingTime = 0`; in particular
`"one two three"` yields `3` and `1`, and 450 space-separated tokens
yield `450` and `3`. -/
theorem C3_metadata_derivation :
    (∀ c : String, deriveWordCount c = (specTokens c).length ∧
      deriveReadingTime c = jsCeilDiv (deriveWordCount c) 200) ∧
    (∀ c : String, (∀ ch ∈ c.data, ch.isWhitespace = true) →
      deriveWordCount c = 0 ∧ deriveReadingTime c = 0) ∧
    (deriveWordCount "one two three" = 3 ∧
      deriveReadingTime "one two three" = 1) ∧
    (deriveWordCount (String.mk ((List.replicate 450 ['w', ' ']).flatten)) = 450 ∧
      deriveReadingTime (String.mk ((List.replicate 450 ['w', ' ']).flatten)) = 3) := by
  have hws : ∀ c : String, (∀ ch ∈ c.data, ch.isWhitespace = true) →
      deriveWordCount c = 0 := by
    intro c h
    unfold deriveWordCount jsWords
    rw [splitWordsAux_all_ws c.data [] h]
    rfl
  refine ⟨fun c => ⟨?_, rfl⟩, fun c h => ⟨hws c h, ?_⟩, ⟨by decide, ?_⟩, ⟨by decide, ?_⟩⟩
  · rw [deriveWordCount, jsWords_eq_specTokens, List.length_map]
  · rw [deriveReadingTime_eq, hws c h]
  · rw [deriveReadingTime_eq]; decide
  · rw [deriveReadingTime_eq]; decide

/-- Witness for C3 at the whitespace-only content `"  "`. -/
theorem C3_metadata_derivation_witness :
    deriveWordCount "  " = 0 ∧ deriveReadingTime "  " = 0 :=
  C3_metadata_derivation.2.1 "  " (by decide)

/-- C1 (code bug): on a fresh install `initDB` opens the database at the
expected schema version but never creates the `clippedPages` store — the
upgrade handler's `contains` branch only backfills and no
`createObjectStore` call exists — so the subsequent `addClippedPage` fails
with `NotFoundError` instead of inserting and returning a new id. -/
theorem C1_fresh_install_add_fails :
    (initDB freshInstall).connected = true ∧
    (initDB freshInstall).version = DB_VERSION ∧
    (initDB freshInstall).storeExists = false ∧
    (addClippedPage (initDB freshInstall)
        { title := some "A", url := some "http://x", content := some "one two three" }
        "2026-01-01T00:00:00.000Z").2 = .error .storeNotFound :=
  ⟨rfl, rfl, rfl, rfl⟩

/-- C4: every operation invoked before a successful `init` rejects with
the not-initialized error and leaves the stored state unchanged. -/
theorem C4_ops_reject_before_init (e : Env) (h : e.connected = false)
    (r : ClippedPage) (now : String) (idToRemove : Nat) :
    addClippedPage e r now = (e, .error .notInit) ∧
    getAllClippedPages e = (e, .error .notInit) ∧
    deleteClippedPage e idToRemove = (e, .error .notInit) ∧
    clearAllClippedPages e = (e, .error .notInit) := by
  unfold addClippedPage getAllClippedPages deleteClippedPage clearAllClippedPages
  simp [h]

/-- Witness for C4 on the fresh-install state. -/
theorem C4_ops_reject_before_init_witness :
    addClippedPage freshInstall tsEmptyPage "t" = (freshInstall, .error .notInit) ∧
    getAllClippedPages freshInstall = (freshInstall, .error .notInit) ∧
    deleteClippedPage freshInstall 7 = (freshInstall, .error .notInit) ∧
    clearAllClippedPages freshInstall = (freshInstall, .error .notInit) :=
  C4_ops_reject_before_init freshInstall rfl tsEmptyPage "t" 7

/-- C6: after `clearAllClippedPages` succeeds, `getAllClippedPages`
returns the empty collection. -/
theorem C6_clearAll_then_getAll_empty (e : Env)
    (hc : e.connected = true) (hs : e.storeExists = true) :
    ∃ e', clearAllClippedPages e = (e', .ok ()) ∧
      getAllClippedPages e' = (e', .ok []) := by
  refine ⟨{ e with pages := [] }, ?_, ?_⟩ <;>
    simp [clearAllClippedPages, getAllClippedPages, hc, hs]

/-- Witness for C6 at a concrete two-record state. -/
theorem C6_clearAll_then_getAll_empty_witness :
    ∃ e', clearAllClippedPages sampleEnv = (e', .ok ()) ∧
      getAllClippedPages e' = (e', .ok []) :=
  C6_clearAll_then_getAll_empty sampleEnv rfl rfl

/-- C5: deleting an id removes exactly the record with that id, keeps all
other records unchanged, and is a no-op without error when no record has
that id. -/
theorem C5_deletePage (e : Env) (idToRemove : Nat)
    (hc : e.connected = true) (hs : e.storeExists = true) :
    ∃ e', deleteClippedPage e idToRemove = (e', .ok ()) ∧
      e'.pages = e.pages.filter (fun p => p.id ≠ some idToRemove) ∧
      getAllClippedPages e' = (e', .ok e'.pages) ∧
      (∀ p ∈ e'.pages, p.id ≠ some idToRemove) ∧
      (∀ p ∈ e.pages, p.id ≠ some idToRemove → p ∈ e'.pages) ∧
      ((∀ p ∈ e.pages, p.id ≠ some idToRemove) → e' = e) := by
  refine ⟨{ e with pages := e.pages.filter (fun p => p.id ≠ some idToRemove) },
    ?_, rfl, ?_, ?_, ?_, ?_⟩
  · simp [deleteClippedPage, hc, hs]
  · simp [getAllClippedPages, hc, hs]
  · intro p hp
    simp only [List.mem_filter, decide_eq_true_eq] at hp
    exact hp.2
  · intro p hp hne
    simp only [List.mem_filter, decide_eq_true_eq]
    exact ⟨hp, hne⟩
  · intro hall
    have hfix : e.pages.filter (fun p => p.id ≠ some idToRemove) = e.pages :=
      List.filter_eq_self.mpr (fun a ha => by simpa using hall a ha)
    rw [hfix]

/-- Witness for C5: deleting id 1 from the sample state. -/
theorem C5_deletePage_witness :
    ∃ e', deleteClippedPage sampleEnv 1 = (e', .ok ()) ∧
      e'.pages = sampleEnv.pages.filter (fun p => p.id ≠ some 1) ∧
      getAllClippedPages e' = (e', .ok e'.pages) ∧
      (∀ p ∈ e'.pages, p.id ≠ some 1) ∧
      (∀ p ∈ sampleEnv.pages, p.id ≠ some 1 → p ∈ e'.pages) ∧
      ((∀ p ∈ sampleEnv.pages, p.id ≠ some 1) → e' = sampleEnv) :=
  C5_deletePage sampleEnv 1 rfl rfl

/-- Equation for `backfillPage` when the falsy test holds: both derived
fields are recomputed from the record's content. -/
theorem backfillPage_eq_pos (p : ClippedPage)
    (h : (jsFalsyNat p.wordCount || jsFalsyNat p.readingTime) = true) :
    backfillPage p = { p with
      wordCount := some (deriveWordCount (jsOrElse p.content "")),
      readingTime := some (deriveReadingTime (jsOrElse p.content "")) } := by
  simp only [backfillPage, h, if_true]

/-- Equation for `backfillPage` when the falsy test fails: the record is
left untouched. -/
theorem backfillPage_eq_neg (p : ClippedPage)
    (h : (jsFalsyNat p.wordCount || jsFalsyNat p.readingTime) = false) :
    backfillPage p = p := by
  simp only [backfillPage, h, Bool.false_eq_true, if_false]

/-- The backfill of a single record is idempotent: a second pass either
sees both fields truthy and leaves the record alone, or recomputes the
same values from the unchanged content. -/
theorem backfillPage_idem (p : ClippedPage) :
    backfillPage (backfillPage p) = backfillPage p := by
  by_cases h : (jsFalsyNat p.wordCount || jsFalsyNat p.readingTime) = true
  · rw [backfillPage_eq_pos p h]
    by_cases hw0 : deriveWordCount (jsOrElse p.content "") = 0
    · rw [backfillPage_eq_pos _ (by simp [jsFalsyNat, hw0])]
    · have hpos := jsCeilDiv_pos (deriveWordCount (jsOrElse p.content ""))
        (Nat.pos_of_ne_zero hw0)
      have hrne : deriveReadingTime (jsOrElse p.content "") ≠ 0 := by
        unfold deriveReadingTime
        omega
      rw [backfillPage_eq_neg _ (by simp [jsFalsyNat, hw0, hrne])]
  · have hf : (jsFalsyNat p.wordCount || jsFalsyNat p.readingTime) = false := by
      simpa using h
    rw [backfillPage_eq_neg p hf, backfillPage_eq_neg p hf]

/-- C7: the migration backfill scan is idempotent: running the upgrade
scan a second time over the data set produced by the first run leaves the
data set identical (no field of any record changes). -/
theorem C7_backfill_scan_idempotent (e : Env) :
    upgradeHandler (upgradeHandler e) = upgradeHandler e := by
  have hmap : ∀ l : List ClippedPage,
      (l.map backfillPage).map backfillPage = l.map backfillPage := by
    intro l
    rw [List.map_map]
    exact List.map_congr_left (fun a _ => backfillPage_idem a)
  unfold upgradeHandler
  by_cases h : e.storeExists <;> simp [h, hmap]

/-- C8: for each record processed by the backfill: when `wordCount` or
`readingTime` is missing/falsy, both are recomputed from that record's
content (empty string if absent) and every other field and the id are
preserved; a record carrying both fields (truthy) is left entirely
unchanged. -/
theorem C8_backfill_frame (p : ClippedPage) :
    ((jsFalsyNat p.wordCount || jsFalsyNat p.readingTime) = true →
      (backfillPage p).id = p.id ∧
      (backfillPage p).title = p.title ∧
      (backfillPage p).url = p.url ∧
      (backfillPage p).content = p.content ∧
      (backfillPage p).timestamp = p.timestamp ∧
      (backfillPage p).wordCount = some (deriveWordCount (jsOrElse p.content "")) ∧
      (backfillPage p).readingTime = some (deriveReadingTime (jsOrElse p.content ""))) ∧
    ((jsFalsyNat p.wordCount || jsFalsyNat p.readingTime) = false →
      backfillPage p = p) := by
  constructor
  · intro h
    rw [backfillPage_eq_pos p h]
    exact ⟨rfl, rfl, rfl, rfl, rfl, rfl, rfl⟩
  · intro h
    exact backfillPage_eq_neg p h

/-- Witness for C8 at the spec's two scenarios: a record with content
`"a b"` lacking both fields gets `wordCount = 2`, `readingTime = 1`; a
record already carrying `wordCount = 5`, `readingTime = 1` is unchanged. -/
theorem C8_backfill_frame_witness :
    (backfillPage samplePage2).wordCount = some 2 ∧
    (backfillPage samplePage2).readingTime = some 1 ∧
    backfillPage samplePage1 = samplePage1 := by
  have h := (C8_backfill_frame samplePage2).1 (by decide)
  have hwc := h.2.2.2.2.2.1
  have hrt := h.2.2.2.2.2.2
  have hid := (C8_backfill_frame samplePage1).2 (by decide)
  refine ⟨?_, ?_, hid⟩
  · rw [hwc]; decide
  · rw [hrt, deriveReadingTime_eq]; decide

/-- Equation for `addClippedPage` on a connected state whose store
exists: the spread record, with derived fields and defaulted timestamp,
is appended under the generated key, which is returned. -/
theorem addClippedPage_eq (e : Env) (pageData : ClippedPage) (now : String)
    (hc : e.connected = true) (hs : e.storeExists = true) :
    addClippedPage e pageData now =
      ({ e with
          pages := e.pages ++ [{ pageData with
            id := some e.nextId,
            timestamp := some (jsOrElse pageData.timestamp now),
            wordCount := some (deriveWordCount (jsOrElse pageData.content "")),
            readingTime := some (deriveReadingTime (jsOrElse pageData.content "")) }],
          nextId := e.nextId + 1 },
        .ok e.nextId) := by
  unfold addClippedPage storeAdd
  simp only [hc, hs, Bool.not_true, Bool.false_eq_true, if_false]
  rfl

/-- C2: on an initialized state whose store exists, adding a record with
title, url and content and no id or derived fields succeeds; the result of
`getAllClippedPages` then contains exactly one record matching the input's
title/url/content that carries the returned id — an id no pre-existing
record had — and non-null derived fields. -/
theorem C2_addPage_then_getAll (e : Env) (r : ClippedPage) (now : String)
    (hc : e.connected = true) (hs : e.storeExists = true) (hwf : e.WF)
    (hid : r.id = none) (hwc : r.wordCount = none) (hrt : r.readingTime = none)
    (ht : r.title.isSome = true) (hu : r.url.isSome = true)
    (hcn : r.content.isSome = true) :
    ∃ e' newId, addClippedPage e r now = (e', .ok newId) ∧
      getAllClippedPages e' = (e', .ok e'.pages) ∧
      (∀ p ∈ e.pages, p.id ≠ some newId) ∧
      e'.pages.countP (matchesNew r newId) = 1 := by
  refine ⟨_, e.nextId, addClippedPage_eq e r now hc hs, ?_, ?_, ?_⟩
  · simp [getAllClippedPages, hc, hs]
  · intro p hp heq
    exact absurd (hwf p hp e.nextId heq) (lt_irrefl _)
  · have h0 : e.pages.countP (matchesNew r e.nextId) = 0 := by
      rw [List.countP_eq_zero]
      intro a ha hpred
      simp only [matchesNew, Bool.and_eq_true, beq_iff_eq] at hpred
      exact absurd (hwf a ha e.nextId hpred.1.1.2) (lt_irrefl _)
    simp [List.countP_append, h0, List.countP_cons, matchesNew]

/-- Witness for C2: adding a fresh record to the sample state. -/
theorem C2_addPage_then_getAll_witness :
    ∃ e' newId, addClippedPage sampleEnv newPage "NOW" = (e', .ok newId) ∧
      getAllClippedPages e' = (e', .ok e'.pages) ∧
      (∀ p ∈ sampleEnv.pages, p.id ≠ some newId) ∧
      e'.pages.countP (matchesNew newPage newId) = 1 := by
  have hwf : sampleEnv.WF := by
    intro p hp i hi
    simp only [sampleEnv, List.mem_cons, List.not_mem_nil, or_false] at hp
    rcases hp with rfl | rfl
    · simp only [samplePage1, Option.some.injEq] at hi
      simp only [sampleEnv]
      omega
    · simp only [samplePage2, Option.some.injEq] at hi
      simp only [sampleEnv]
      omega
  exact C2_addPage_then_getAll sampleEnv newPage "NOW" rfl rfl hwf rfl rfl rfl
    rfl rfl rfl

/-- C9 counterexample: the claim says every caller-supplied timestamp is
stored unchanged, but a supplied empty-string timestamp is falsy, so
`pageData.timestamp || now` stores the current time instead. -/
theorem C9_timestamp_counterexample :
    tsEmptyPage.timestamp = some "" ∧
    (addClippedPage sampleEnv tsEmptyPage "NOW").1.pages.map ClippedPage.timestamp =
      [some "t1", none, some "NOW"] ∧
    (some "NOW" : Option String) ≠ some "" := by
  refine ⟨rfl, ?_, by decide⟩
  rw [addClippedPage_eq sampleEnv tsEmptyPage "NOW" rfl rfl]
  rfl

/-- C9 (amended): the stored record's `wordCount` and `readingTime` are
always the values derived from its content, overriding any
caller-supplied ones; a caller-supplied non-empty `timestamp` is stored
unchanged, while an absent or empty-string (falsy) `timestamp` is
defaulted to the current time. -/
theorem C9_amended_addPage_overrides (e : Env) (r : ClippedPage) (now : String)
    (hc : e.connected = true) (hs : e.storeExists = true) :
    ∃ q, (addClippedPage e r now).1.pages = e.pages ++ [q] ∧
      q.wordCount = some (deriveWordCount (jsOrElse r.content "")) ∧
      q.readingTime = some (deriveReadingTime (jsOrElse r.content "")) ∧
      (∀ ts : String, r.timestamp = some ts → ts ≠ "" → q.timestamp = some ts) ∧
      ((r.timestamp = none ∨ r.timestamp = some "") → q.timestamp = some now) := by
  rw [addClippedPage_eq e r now hc hs]
  refine ⟨_, rfl, rfl, rfl, ?_, ?_⟩
  · intro ts hts hne
    simp [jsOrElse, hts, hne]
  · rintro (hts | hts) <;> simp [jsOrElse, hts]

/-- Witness for C9 (amended): caller-supplied derived fields `999`/`77`
are overridden and the non-empty timestamp `"TS"` is kept. -/
theorem C9_amended_addPage_overrides_witness :
    ∃ q, (addClippedPage sampleEnv overridePage "NOW").1.pages =
        sampleEnv.pages ++ [q] ∧
      q.wordCount = some (deriveWordCount (jsOrElse overridePage.content "")) ∧
      q.readingTime = some (deriveReadingTime (jsOrElse overridePage.content "")) ∧
      (∀ ts : String, overridePage.timestamp = some ts → ts ≠ "" →
        q.timestamp = some ts) ∧
      ((overridePage.timestamp = none ∨ overridePage.timestamp = some "") →
        q.timestamp = some "NOW") :=
  C9_amended_addPage_overrides sampleEnv overridePage "NOW" rfl rfl

/-- C10: `addClippedPage` on a record whose `content` is absent (or the
falsy empty string) does not fail: it stores `wordCount = 0` and
`readingTime = 0` and keeps the `content` field exactly as supplied. -/
theorem C10_addPage_absent_content (e : Env) (r : ClippedPage) (now : String)
    (hc : e.connected = true) (hs : e.storeExists = true)
    (hcontent : r.content = none ∨ r.content = some "") :
    ∃ q, addClippedPage e r now =
        ({ e with pages := e.pages ++ [q], nextId := e.nextId + 1 }, .ok e.nextId) ∧
      q.wordCount = some 0 ∧ q.readingTime = some 0 ∧ q.content = r.content := by
  rw [addClippedPage_eq e r now hc hs]
  have htext : jsOrElse r.content "" = "" := by
    rcases hcontent with h | h <;> simp [jsOrElse, h]
  refine ⟨_, rfl, ?_, ?_, rfl⟩
  · rw [htext]
    show some (deriveWordCount "") = some 0
    decide
  · rw [htext, deriveReadingTime_eq]
    show some ((deriveWordCount "" + 199) / 200) = some 0
    decide

/-- Witness for C10: adding a record with no content to the sample
state. -/
theorem C10_addPage_absent_content_witness :
    ∃ q, addClippedPage sampleEnv noContentPage "NOW" =
        ({ sampleEnv with
            pages := sampleEnv.pages ++ [q],
            nextId := sampleEnv.nextId + 1 },
          .ok sampleEnv.nextId) ∧
      q.wordCount = some 0 ∧ q.readingTime = some 0 ∧
      q.content = noContentPage.content :=
  C10_addPage_absent_content sampleEnv noContentPage "NOW" rfl rfl (Or.inl rfl)

end WebpageClipper
